import Mathlib

/-!
Shallow embedding of `src/main.rs` of the `timer` crate (an interactive terminal
countdown timer) and proofs about it.

Modelling conventions:
* Rust `Duration` values are modelled as a whole number of milliseconds (`Nat`);
  every duration constant appearing in the source is a whole number of
  milliseconds, and `Duration::saturating_sub` is `Nat` subtraction.
  `duration.as_secs()` is `d / 1000`.
* The `Timer` component's concurrent behaviour is modelled as a state machine:
  the 1000 ms countdown future, the 100 ms trigger/exit-check future, the
  terminal-event handler and the termination of the spawned audio thread are
  each one atomic event kind, interleaved arbitrarily.
* The spawned audio thread's body is modelled separately (`taskRun`) over an
  environment recording the outcome of each fallible step and the sequence of
  observations made by its polling loop.
* External collaborators (`figlet_rs`, the filesystem, `directories`) enter as
  oracle parameters / environment records, mirroring exactly the calls the
  source makes on them.
-/

namespace Timer

/-- Rust `format!("{:02}", n)`: the decimal digits of `n`, left-padded with zeros
to a minimum width of two characters, never truncated. -/
def pad2 (n : Nat) : String :=
  let s := Nat.repr n
  if s.length < 2 then "0" ++ s else s

/-- `fn format_duration_hms(duration: Duration) -> String` (src/main.rs:41-47).
`d` is the duration in milliseconds; `d / 1000` is `duration.as_secs()`. -/
def format_duration_hms (d : Nat) : String :=
  let total_secs := d / 1000
  let hours := total_secs / 3600
  let minutes := (total_secs % 3600) / 60
  let seconds := total_secs % 60
  pad2 hours ++ ":" ++ pad2 minutes ++ ":" ++ pad2 seconds

/-- `const FIGLET_MIN_WIDTH: usize = 60;` (src/main.rs:14). -/
def FIGLET_MIN_WIDTH : Nat := 60

/-- The colors the source uses (src/main.rs:133 and 153). -/
inductive Color where
  | Red
  | Blue
  | Green
deriving DecidableEq, Repr

/-- `let text_color = if playing.get() { Color::Red } else { Color::Blue };`
(src/main.rs:133). -/
def text_color (playing : Bool) : Color :=
  if playing then Color.Red else Color.Blue

/-- Lines 135-141 of src/main.rs: the choice of the display string for one frame.
`figlet` is the external banner renderer `format_duration_figlet`
(src/main.rs:49-51), an opaque collaborator that may fail (`Option`);
`Option.getD` is Rust's `unwrap_or`. `width` is the terminal width and `d` the
remaining duration in milliseconds. -/
def display_text (figlet : String → Option String) (width : Nat) (d : Nat) : String :=
  let hms := format_duration_hms d
  let use_figlet := FIGLET_MIN_WIDTH ≤ width
  if use_figlet then (figlet hms).getD hms else hms

/-- Filesystem / platform environment observed by `find_sound_file`
(src/main.rs:16-39): whether `sound.mp3` exists in the current working
directory, whether `ProjectDirs::from("com","brownbishop","timer")` is
available and whether its data dir holds `sound.mp3`, whether
`std::env::current_exe()` succeeds, whether that path has a parent, and
whether the parent holds `sound.mp3`. -/
structure FsEnv where
  cwdSoundExists : Bool
  projDirsAvailable : Bool
  dataSoundExists : Bool
  exeOk : Bool
  exeHasParent : Bool
  exeSoundExists : Bool
deriving DecidableEq, Repr

/-- The three candidate locations `find_sound_file` can return. -/
inductive SoundLoc where
  | cwd
  | dataDir
  | exeDir
deriving DecidableEq, Repr

/-- `fn find_sound_file() -> Option<PathBuf>` (src/main.rs:16-39): early-return
checks of the three candidate locations, in source order. -/
def find_sound_file (fs : FsEnv) : Option SoundLoc :=
  if fs.cwdSoundExists then some SoundLoc.cwd
  else if fs.projDirsAvailable && fs.dataSoundExists then some SoundLoc.dataDir
  else if fs.exeOk && fs.exeHasParent && fs.exeSoundExists then some SoundLoc.exeDir
  else none

/-- The `find_sound_file().expect(...)` call in `main` (src/main.rs:167):
a `None` result is a fatal startup error with the enumerating message. -/
def startupSoundFile (fs : FsEnv) : Except String SoundLoc :=
  match find_sound_file fs with
  | some p => Except.ok p
  | none => Except.error "Could not find sound.mp3 in any of these locations:\n  - ./sound.mp3 (current directory)\n  - <data_dir>/timer/sound.mp3\n  - <executable_dir>/sound.mp3"

/-! ## The session state machine (the `Timer` component, src/main.rs:59-159) -/

/-- The shared state of one session: the `use_state` hooks `remaining`,
`playing`, `should_exit` and the two `Arc<AtomicBool>` flags `stop_signal` and
`finished_signal` (src/main.rs:61-67). `dispatched` is a ghost counter of
`thread::spawn` calls (src/main.rs:87) and `quitSeen` a ghost flag recording
that a non-release `'q'` key event was observed; neither exists in the source,
they only record history for the statements below. -/
structure SessionState where
  remaining : Nat
  playing : Bool
  shouldExit : Bool
  stopSignal : Bool
  finished : Bool
  dispatched : Nat
  quitSeen : Bool
deriving DecidableEq, Repr

/-- One iteration of the 1000 ms countdown future (src/main.rs:71-78):
`if !playing.get() && !remaining.get().is_zero() { remaining.set(remaining.get().saturating_sub(1s)) }`. -/
def tickStep (s : SessionState) : SessionState :=
  if !s.playing && !(s.remaining == 0) then
    { s with remaining := s.remaining - 1000 }
  else s

/-- The first half of one iteration of the 100 ms future (src/main.rs:83-106):
`if remaining.get().is_zero() && !playing.get()` then spawn the audio thread
and set `playing` to true. -/
def triggerCheck (s : SessionState) : SessionState :=
  if s.remaining == 0 && !s.playing then
    { s with dispatched := s.dispatched + 1, playing := true }
  else s

/-- The second half of one iteration of the 100 ms future (src/main.rs:107-109):
`if playing.get() && finished_signal.read().load(..) { should_exit.set(true) }`. -/
def exitCheck (s : SessionState) : SessionState :=
  if s.playing && s.finished then { s with shouldExit := true } else s

/-- One full iteration of the 100 ms trigger/exit future (src/main.rs:80-111):
the trigger check runs first, then the exit check, reading the state the
trigger check left behind. -/
def checkStep (s : SessionState) : SessionState :=
  exitCheck (triggerCheck s)

/-- The terminal-event handler (src/main.rs:113-127): a key event with code `c`;
`release` is whether `kind == KeyEventKind::Release` (such events are ignored).
A non-release `'q'` stores `stop_signal` and sets `should_exit`; every other
key does nothing. -/
def keyStep (c : Char) (release : Bool) (s : SessionState) : SessionState :=
  if release then s
  else if c == 'q' then
    { s with stopSignal := true, shouldExit := true, quitSeen := true }
  else s

/-- Termination of the spawned audio thread (src/main.rs:87-104): its last
action is `finished.store(true, ..)`. The guard records when this event can
occur in a real execution: only after a thread was actually spawned, and at
most once per spawn (the thread terminates once). -/
def taskDoneStep (s : SessionState) : SessionState :=
  if !(s.dispatched == 0) && !s.finished then { s with finished := true } else s

/-- The event alphabet of the interleaving model. -/
inductive Ev where
  | tick
  | check
  | key (c : Char) (release : Bool)
  | taskDone
deriving DecidableEq, Repr

/-- The transition function of the session. -/
def step (e : Ev) (s : SessionState) : SessionState :=
  match e with
  | Ev.tick => tickStep s
  | Ev.check => checkStep s
  | Ev.key c r => keyStep c r s
  | Ev.taskDone => taskDoneStep s

/-- The initial session state for a requested duration of `d` milliseconds
(src/main.rs:61-67): full duration, all flags false, no thread spawned. -/
def init (d : Nat) : SessionState :=
  { remaining := d
    playing := false
    shouldExit := false
    stopSignal := false
    finished := false
    dispatched := 0
    quitSeen := false }

/-- Run a finite interleaving of events from a state. -/
def runEvents (s : SessionState) (evs : List Ev) : SessionState :=
  evs.foldl (fun t e => step e t) s

/-- Number of countdown ticks in an event interleaving. -/
def countTicks : List Ev → Nat
  | [] => 0
  | Ev.tick :: evs => countTicks evs + 1
  | _ :: evs => countTicks evs

/-! ## The audio playback thread (src/main.rs:87-104) -/

/-- One observation of the polling loop's condition
`!sink.empty() && !stop.load(..)` (src/main.rs:93): whether the sink was seen
empty and whether the stop flag was seen set at that check. -/
structure PollObs where
  sinkEmpty : Bool
  stop : Bool
deriving DecidableEq, Repr

/-- The polling loop `while !sink.empty() && !stop.load(..) { sleep(50ms) }`
(src/main.rs:93-95), returning the number of 50 ms sleeps performed. The
decoded audio is finite, so the sink is eventually empty forever; an exhausted
observation list models that natural end of stream. -/
def pollLoop : List PollObs → Nat
  | [] => 0
  | o :: rest => if o.sinkEmpty || o.stop then 0 else 1 + pollLoop rest

/-- The environment of one run of the spawned audio thread: the outcome of
`OutputStream::try_default()`, `Sink::try_new`, `File::open` and
`Decoder::new` (src/main.rs:88-91), and the polling-loop observations. -/
structure AudioEnv where
  deviceOk : Bool
  sinkOk : Bool
  fileOk : Bool
  decodeOk : Bool
  polls : List PollObs
deriving DecidableEq, Repr

/-- What one run of the audio thread did: how many 50 ms sleeps its loop
performed, whether `sink.stop()` (src/main.rs:96) was reached, and how many
times `finished.store(true, ..)` (src/main.rs:103) executed. -/
structure TaskResult where
  sleeps : Nat
  sinkStopped : Bool
  finishedStores : Nat
deriving DecidableEq, Repr

/-- The body of the spawned audio thread (src/main.rs:87-104): four nested
`if let Ok(..)` layers around the polling loop and `sink.stop()`, then an
unconditional `finished.store(true, ..)` after the outermost `if let`. The
body contains no `unwrap`/`expect`/`panic`, so it is a total function. -/
def taskRun (env : AudioEnv) : TaskResult :=
  let r : TaskResult :=
    if env.deviceOk then
      if env.sinkOk then
        if env.fileOk then
          if env.decodeOk then
            { sleeps := pollLoop env.polls, sinkStopped := true, finishedStores := 0 }
          else { sleeps := 0, sinkStopped := false, finishedStores := 0 }
        else { sleeps := 0, sinkStopped := false, finishedStores := 0 }
      else { sleeps := 0, sinkStopped := false, finishedStores := 0 }
    else { sleeps := 0, sinkStopped := false, finishedStores := 0 }
  { r with finishedStores := r.finishedStores + 1 }

/-! ## Basic lemmas about the session machine -/

theorem runEvents_nil (s : SessionState) : runEvents s [] = s := rfl

theorem runEvents_cons (s : SessionState) (e : Ev) (evs : List Ev) :
    runEvents s (e :: evs) = runEvents (step e s) evs := rfl

/-- Any predicate preserved by every single step is preserved by every run. -/
theorem runEvents_inv (P : SessionState → Prop)
    (hstep : ∀ e s, P s → P (step e s)) :
    ∀ (evs : List Ev) (s : SessionState), P s → P (runEvents s evs) := by
  intro evs
  induction evs with
  | nil => intro s hs; exact hs
  | cons e evs ih =>
    intro s hs
    rw [runEvents_cons]
    exact ih (step e s) (hstep e s hs)

/-- No step ever resets `playing`, `finished`, `quitSeen` or `shouldExit`, and
`dispatched` never decreases. -/
theorem step_flags_mono (e : Ev) (s : SessionState) :
    (s.playing = true → (step e s).playing = true) ∧
    (s.finished = true → (step e s).finished = true) ∧
    (s.quitSeen = true → (step e s).quitSeen = true) ∧
    (s.shouldExit = true → (step e s).shouldExit = true) ∧
    s.dispatched ≤ (step e s).dispatched := by
  cases e <;>
    simp only [step, tickStep, checkStep, triggerCheck, exitCheck, keyStep, taskDoneStep] <;>
    repeat' split <;>
    simp_all

/-- `playing` is set only when `remaining` is zero, and `remaining` never
changes while `playing` is set, so `playing = true → remaining = 0` is an
inductive invariant. -/
theorem step_playing_remaining (e : Ev) (s : SessionState)
    (h : s.playing = true → s.remaining = 0) :
    (step e s).playing = true → (step e s).remaining = 0 := by
  cases e <;>
    simp only [step, tickStep, checkStep, triggerCheck, exitCheck, keyStep, taskDoneStep] <;>
    repeat' split <;>
    simp_all

/-! ## Claim C1 -/

/-- C1 counterexample: the claimed state invariant "ShouldExit is true iff the
quit key was observed or (Playing has been reached and FinishedSignal is
true)" fails on the code: after the trigger check dispatches playback
(duration 0) and the audio thread then terminates, `playing` and `finished`
are both true while `should_exit` is still false, because `should_exit` is
only set by the *next* iteration of the 100 ms check loop. -/
theorem shouldExit_iff_counterexample :
    ¬ (∀ (d : Nat) (evs : List Ev),
        (runEvents (init d) evs).shouldExit = true ↔
          ((runEvents (init d) evs).quitSeen = true ∨
            ((runEvents (init d) evs).playing = true ∧
              (runEvents (init d) evs).finished = true))) := by
  intro h
  exact absurd ((h 0 [Ev.check, Ev.taskDone]).mpr (by decide)) (by decide)

/-- C1 (amended): in every reachable state, `should_exit = true` implies that
the quit key was observed or that `playing` and `finished` both hold (so
`should_exit` is false whenever neither condition has occurred); conversely
the quit-key handler sets `should_exit` immediately, and the exit check sets
it on the first 100 ms cycle that runs while `playing` and `finished` both
hold — but between the audio thread's store to `finished` and that next check
cycle, `should_exit` may still be false. -/
theorem shouldExit_characterization :
    (∀ (d : Nat) (evs : List Ev), (runEvents (init d) evs).shouldExit = true →
      ((runEvents (init d) evs).quitSeen = true ∨
        ((runEvents (init d) evs).playing = true ∧
          (runEvents (init d) evs).finished = true))) ∧
    (∀ s : SessionState, s.playing = true → s.finished = true →
      (checkStep s).shouldExit = true) ∧
    (∀ s : SessionState, (keyStep 'q' false s).shouldExit = true) := by
  refine ⟨?_, ?_, ?_⟩
  · intro d evs
    have h := runEvents_inv
      (fun t => t.shouldExit = true →
        (t.quitSeen = true ∨ (t.playing = true ∧ t.finished = true)))
      ?_ evs (init d) ?_
    · exact h
    · intro e s hs
      cases e <;>
        simp only [step, tickStep, checkStep, triggerCheck, exitCheck, keyStep,
          taskDoneStep] <;>
        repeat' split <;>
        simp_all
    · intro h
      simp [init] at h
  · intro s h1 h2
    simp [checkStep, triggerCheck, exitCheck, h1, h2]
  · intro s
    simp [keyStep]

/-- Witness for C1's amended theorem: a quit-key trace discharging the
soundness direction's hypothesis, a concrete state where the exit check
fires, and a concrete quit-key step. -/
theorem shouldExit_characterization_witness :
    ((runEvents (init 0) [Ev.key 'q' false]).shouldExit = true ∧
      ((runEvents (init 0) [Ev.key 'q' false]).quitSeen = true ∨
        ((runEvents (init 0) [Ev.key 'q' false]).playing = true ∧
          (runEvents (init 0) [Ev.key 'q' false]).finished = true))) ∧
    (checkStep ⟨0, true, false, false, true, 1, false⟩).shouldExit = true ∧
    (keyStep 'q' false (init 60000)).shouldExit = true :=
  ⟨⟨by decide, shouldExit_characterization.1 0 [Ev.key 'q' false] (by decide)⟩,
   shouldExit_characterization.2.1 ⟨0, true, false, false, true, 1, false⟩ rfl rfl,
   shouldExit_characterization.2.2 (init 60000)⟩

/-! ## Claim C2 -/

/-- C2: the audio-playback thread is dispatched at most once per session: the
trigger check spawns the thread and sets `playing` in the same cycle, and a
cycle that sees `playing` already set never dispatches, so `dispatched` never
exceeds one in any reachable state, however many 100 ms cycles run with
`remaining = 0`. -/
theorem alarm_dispatched_at_most_once :
    (∀ s : SessionState, s.playing = true →
      (checkStep s).dispatched = s.dispatched) ∧
    (∀ (d : Nat) (evs : List Ev), (runEvents (init d) evs).dispatched ≤ 1) := by
  constructor
  · intro s h
    simp only [checkStep, triggerCheck, exitCheck, h]
    repeat' split <;> simp_all
  · intro d evs
    have h := runEvents_inv
      (fun t => (t.playing = false → t.dispatched = 0) ∧ t.dispatched ≤ 1)
      ?_ evs (init d) ?_
    · exact h.2
    · intro e s hs
      cases e <;>
        simp only [step, tickStep, checkStep, triggerCheck, exitCheck, keyStep,
          taskDoneStep] <;>
        repeat' split <;>
        simp_all
    · exact ⟨fun _ => rfl, by simp [init]⟩

/-- Witness for C2: a cycle running on a state with `playing` already set
leaves the dispatch count unchanged, and a session of duration 0 driven
through many trigger-check cycles dispatches at most once. -/
theorem alarm_dispatched_at_most_once_witness :
    (checkStep ⟨0, true, false, false, false, 1, false⟩).dispatched = 1 ∧
    (runEvents (init 0) [Ev.check, Ev.check, Ev.check, Ev.check]).dispatched ≤ 1 :=
  ⟨alarm_dispatched_at_most_once.1 ⟨0, true, false, false, false, 1, false⟩ rfl,
   alarm_dispatched_at_most_once.2 0 [Ev.check, Ev.check, Ev.check, Ev.check]⟩

/-! ## Claims C3 and C4: the countdown value -/

/-- When `playing = true` implies `remaining = 0`, a tick leaves exactly
`remaining - 1000` (saturating), whether or not it fires. -/
theorem step_tick_remaining (s : SessionState)
    (h : s.playing = true → s.remaining = 0) :
    (step Ev.tick s).remaining = s.remaining - 1000 := by
  by_cases hp : s.playing = true
  · have h0 := h hp
    simp [step, tickStep, hp, h0]
  · have hp' : s.playing = false := by
      cases hb : s.playing
      · rfl
      · exact absurd hb hp
    by_cases hr : s.remaining = 0
    · simp [step, tickStep, hr]
    · simp [step, tickStep, hp', hr]

/-- No event other than a tick changes `remaining`. -/
theorem step_nontick_remaining (e : Ev) (s : SessionState) (h : e ≠ Ev.tick) :
    (step e s).remaining = s.remaining := by
  cases e with
  | tick => exact absurd rfl h
  | check =>
    simp only [step, checkStep, triggerCheck, exitCheck]
    repeat' split <;> simp_all
  | key c r =>
    simp only [step, keyStep]
    repeat' split <;> simp_all
  | taskDone =>
    simp only [step, taskDoneStep]
    repeat' split <;> simp_all

/-- Running any interleaving subtracts 1000 ms per tick it contains (Nat
subtraction, hence clamped at zero), provided `playing` can only be set with
`remaining = 0` — which `step_playing_remaining` shows is invariant. -/
theorem runEvents_remaining_count :
    ∀ (evs : List Ev) (s : SessionState), (s.playing = true → s.remaining = 0) →
      (runEvents s evs).remaining = s.remaining - 1000 * countTicks evs := by
  intro evs
  induction evs with
  | nil => intro s _; simp [runEvents_nil, countTicks]
  | cons e evs ih =>
    intro s h
    rw [runEvents_cons, ih (step e s) (step_playing_remaining e s h)]
    cases e with
    | tick =>
      rw [step_tick_remaining s h]
      simp only [countTicks]
      omega
    | check =>
      rw [step_nontick_remaining Ev.check s (by simp)]
      simp only [countTicks]
    | key c r =>
      rw [step_nontick_remaining (Ev.key c r) s (by simp)]
      simp only [countTicks]
    | taskDone =>
      rw [step_nontick_remaining Ev.taskDone s (by simp)]
      simp only [countTicks]

theorem countTicks_replicate (D : Nat) : countTicks (List.replicate D Ev.tick) = D := by
  induction D with
  | zero => rfl
  | succ D ih => simp [List.replicate, countTicks, ih]

/-- C3: a firing tick subtracts exactly one second, clamped at zero, when the
alarm is inactive and `remaining` is positive, and is a no-op when the alarm
is playing or `remaining` is already zero; consequently a session started at
`D` whole seconds that receives `D` ticks (and no other input) ends with
`remaining` exactly zero. -/
theorem tick_spec :
    (∀ s : SessionState, s.playing = false → s.remaining ≠ 0 →
      ((tickStep s).remaining : Int) = max ((s.remaining : Int) - 1000) 0) ∧
    (∀ s : SessionState, s.playing = true ∨ s.remaining = 0 → tickStep s = s) ∧
    (∀ D : Nat,
      (runEvents (init (1000 * D)) (List.replicate D Ev.tick)).remaining = 0) := by
  refine ⟨?_, ?_, ?_⟩
  · intro s h1 h2
    simp [tickStep, h1, h2]
    omega
  · intro s h
    rcases h with h | h <;> simp [tickStep, h]
  · intro D
    rw [runEvents_remaining_count (List.replicate D Ev.tick) (init (1000 * D))
      (by simp [init]), countTicks_replicate]
    simp [init]

/-- Witness for C3: a concrete inactive state with 2.5 s left after one tick,
a concrete playing state left untouched, and a 3-second session reaching zero
after 3 ticks. -/
theorem tick_spec_witness :
    (((tickStep ⟨2500, false, false, false, false, 0, false⟩).remaining : Int) =
      max ((2500 : Int) - 1000) 0) ∧
    tickStep ⟨2500, true, false, false, false, 1, false⟩ =
      ⟨2500, true, false, false, false, 1, false⟩ ∧
    (runEvents (init (1000 * 3)) (List.replicate 3 Ev.tick)).remaining = 0 :=
  ⟨tick_spec.1 ⟨2500, false, false, false, false, 0, false⟩ rfl (by decide),
   tick_spec.2.1 ⟨2500, true, false, false, false, 1, false⟩ (Or.inl rfl),
   tick_spec.2.2 3⟩

/-- Once `playing` holds, no step changes `remaining` or resets `playing`. -/
theorem step_frozen_of_playing (e : Ev) (s : SessionState) (h : s.playing = true) :
    (step e s).remaining = s.remaining ∧ (step e s).playing = true := by
  cases e <;>
    simp only [step, tickStep, checkStep, triggerCheck, exitCheck, keyStep,
      taskDoneStep, h] <;>
    repeat' split <;>
    simp_all

/-- C4: `remaining` is a `Nat`, hence never negative; it never increases
across any operation (in particular it is non-increasing while the alarm is
inactive); and once `playing` is set it is frozen: every subsequent
interleaving of operations leaves it — and `playing` — unchanged. -/
theorem remaining_nonneg_monotone_frozen :
    (∀ (e : Ev) (s : SessionState), 0 ≤ ((step e s).remaining : Int)) ∧
    (∀ (e : Ev) (s : SessionState), (step e s).remaining ≤ s.remaining) ∧
    (∀ (evs : List Ev) (s : SessionState), s.playing = true →
      (runEvents s evs).remaining = s.remaining ∧ (runEvents s evs).playing = true) := by
  refine ⟨?_, ?_, ?_⟩
  · intro e s
    exact Int.natCast_nonneg _
  · intro e s
    cases e with
    | tick =>
      simp only [step, tickStep]
      split
      · exact Nat.sub_le _ _
      · exact Nat.le_refl _
    | check => exact (step_nontick_remaining Ev.check s (by simp)).le
    | key c r => exact (step_nontick_remaining (Ev.key c r) s (by simp)).le
    | taskDone => exact (step_nontick_remaining Ev.taskDone s (by simp)).le
  · intro evs s h
    have hinv := runEvents_inv
      (fun t => t.remaining = s.remaining ∧ t.playing = true)
      (fun e t ht => by
        have hf := step_frozen_of_playing e t ht.2
        exact ⟨hf.1.trans ht.1, hf.2⟩)
      evs s ⟨rfl, h⟩
    exact hinv

/-- Witness for C4: from a concrete playing state, a mixed interleaving of
ticks, checks and key presses leaves the remaining time frozen. -/
theorem remaining_nonneg_monotone_frozen_witness :
    (runEvents ⟨4000, true, false, false, false, 1, false⟩
        [Ev.tick, Ev.check, Ev.key 'q' false, Ev.tick, Ev.taskDone]).remaining = 4000 ∧
    (runEvents ⟨4000, true, false, false, false, 1, false⟩
        [Ev.tick, Ev.check, Ev.key 'q' false, Ev.tick, Ev.taskDone]).playing = true :=
  remaining_nonneg_monotone_frozen.2.2
    [Ev.tick, Ev.check, Ev.key 'q' false, Ev.tick, Ev.taskDone]
    ⟨4000, true, false, false, false, 1, false⟩ rfl

/-! ## Claim C6 -/

/-- C6: if the stop flag is observed set at the `k`-th check of the playback
polling loop, the loop performs at most `k` sleeps (it exits at that check or
earlier), regardless of how much audio remains in the sink; on the successful
playback path, after the loop the thread calls `sink.stop()` and then stores
the finished flag. -/
theorem stop_request_bounded_exit :
    (∀ (polls : List PollObs) (k : Nat) (hk : k < polls.length),
      (polls.get ⟨k, hk⟩).stop = true → pollLoop polls ≤ k) ∧
    (∀ env : AudioEnv, env.deviceOk = true → env.sinkOk = true →
      env.fileOk = true → env.decodeOk = true →
      (taskRun env).sleeps = pollLoop env.polls ∧
      (taskRun env).sinkStopped = true ∧ (taskRun env).finishedStores = 1) := by
  constructor
  · intro polls
    induction polls with
    | nil => intro k hk; exact absurd hk (by simp)
    | cons o rest ih =>
      intro k hk hstop
      cases k with
      | zero =>
        simp only [List.get] at hstop
        simp [pollLoop, hstop]
      | succ k =>
        simp only [List.get] at hstop
        have := ih k (by simpa using hk) hstop
        simp only [pollLoop]
        split
        · omega
        · omega
  · intro env h1 h2 h3 h4
    simp [taskRun, h1, h2, h3, h4]

/-- Witness for C6: a loop whose second check observes the stop flag sleeps at
most once, and a fully successful playback run stops the sink and stores the
finished flag. -/
theorem stop_request_bounded_exit_witness :
    ((([⟨false, false⟩, ⟨false, true⟩] : List PollObs).get ⟨1, by decide⟩).stop = true ∧
      pollLoop [⟨false, false⟩, ⟨false, true⟩] ≤ 1) ∧
    ((taskRun ⟨true, true, true, true, [⟨false, false⟩, ⟨false, true⟩]⟩).sleeps =
        pollLoop [⟨false, false⟩, ⟨false, true⟩] ∧
      (taskRun ⟨true, true, true, true, [⟨false, false⟩, ⟨false, true⟩]⟩).sinkStopped = true ∧
      (taskRun ⟨true, true, true, true, [⟨false, false⟩, ⟨false, true⟩]⟩).finishedStores = 1) :=
  ⟨⟨rfl, stop_request_bounded_exit.1 [⟨false, false⟩, ⟨false, true⟩] 1 (by decide) rfl⟩,
   stop_request_bounded_exit.2 ⟨true, true, true, true, [⟨false, false⟩, ⟨false, true⟩]⟩
     rfl rfl rfl rfl⟩

/-! ## Claim C5 -/

/-- C5: whatever the outcome of the audio-playback thread — no output device,
no sink, the sound file failing to open, failing to decode, natural end of
stream, or an observed stop request — the thread executes
`finished.store(true, ..)` exactly once before terminating, and its body is a
total function (no fatal error). -/
theorem playback_sets_finished_exactly_once (env : AudioEnv) :
    (taskRun env).finishedStores = 1 := by
  rcases env with ⟨d, sk, f, dec, polls⟩
  cases d <;> cases sk <;> cases f <;> cases dec <;> rfl

/-! ## Claim C7 -/

/-- C7: `format_duration_hms` renders zero-padded hours:minutes:seconds; a
duration of 3661 seconds (3661000 ms) gives "01:01:01", 0 seconds gives
"00:00:00", and 359999 seconds gives "99:59:59". -/
theorem format_duration_hms_examples :
    format_duration_hms (3661 * 1000) = "01:01:01" ∧
    format_duration_hms 0 = "00:00:00" ∧
    format_duration_hms (359999 * 1000) = "99:59:59" := by
  refine ⟨?_, ?_, ?_⟩ <;> decide

/-! ## Claim C8 -/

/-- C8: `find_sound_file` checks the working directory, then the
per-application data directory, then the executable's directory, returning
the first location where `sound.mp3` exists; when the file is in both the
working directory and the data directory the working directory wins, and when
it is nowhere the function returns `none` and `main`'s `expect` turns that
into a fatal startup error. -/
theorem find_sound_file_order :
    (∀ fs : FsEnv, fs.cwdSoundExists = true → find_sound_file fs = some SoundLoc.cwd) ∧
    (∀ fs : FsEnv, fs.cwdSoundExists = false → fs.projDirsAvailable = true →
      fs.dataSoundExists = true → find_sound_file fs = some SoundLoc.dataDir) ∧
    (∀ fs : FsEnv, fs.cwdSoundExists = false →
      (fs.projDirsAvailable && fs.dataSoundExists) = false → fs.exeOk = true →
      fs.exeHasParent = true → fs.exeSoundExists = true →
      find_sound_file fs = some SoundLoc.exeDir) ∧
    (∀ fs : FsEnv, fs.cwdSoundExists = false → fs.dataSoundExists = false →
      fs.exeSoundExists = false →
      find_sound_file fs = none ∧
      startupSoundFile fs = Except.error "Could not find sound.mp3 in any of these locations:\n  - ./sound.mp3 (current directory)\n  - <data_dir>/timer/sound.mp3\n  - <executable_dir>/sound.mp3") := by
  refine ⟨?_, ?_, ?_, ?_⟩
  · intro fs h
    simp [find_sound_file, h]
  · intro fs h1 h2 h3
    simp [find_sound_file, h1, h2, h3]
  · intro fs h1 h2 h3 h4 h5
    simp [find_sound_file, h1, h2, h3, h4, h5]
  · intro fs h1 h2 h3
    have hf : find_sound_file fs = none := by
      simp [find_sound_file, h1, h2, h3]
    exact ⟨hf, by simp [startupSoundFile, hf]⟩

/-- Witness for C8: concrete filesystem environments exercising each conjunct,
in particular the file present in both the working directory and the data
directory (first conjunct) and the file present nowhere (last conjunct). -/
theorem find_sound_file_order_witness :
    (find_sound_file ⟨true, true, true, true, true, true⟩ = some SoundLoc.cwd) ∧
    (find_sound_file ⟨false, true, true, true, true, true⟩ = some SoundLoc.dataDir) ∧
    (find_sound_file ⟨false, true, false, true, true, true⟩ = some SoundLoc.exeDir) ∧
    (find_sound_file ⟨false, true, false, true, true, false⟩ = none) :=
  ⟨find_sound_file_order.1 ⟨true, true, true, true, true, true⟩ rfl,
   find_sound_file_order.2.1 ⟨false, true, true, true, true, true⟩ rfl rfl rfl,
   find_sound_file_order.2.2.1 ⟨false, true, false, true, true, true⟩ rfl rfl rfl rfl rfl,
   (find_sound_file_order.2.2.2 ⟨false, true, false, true, true, false⟩ rfl rfl rfl).1⟩

/-! ## Claim C9 -/

/-- C9: per frame, the displayed text is the banner rendering of the formatted
time when the terminal is at least 60 columns wide and the banner collaborator
succeeds, and the plain compact string when the width is below 60 or the
collaborator fails; the color is red exactly when `playing` is set, blue
otherwise. -/
theorem render_display_spec :
    (∀ (figlet : String → Option String) (width d : Nat) (banner : String),
      FIGLET_MIN_WIDTH ≤ width → figlet (format_duration_hms d) = some banner →
      display_text figlet width d = banner) ∧
    (∀ (figlet : String → Option String) (width d : Nat),
      width < FIGLET_MIN_WIDTH → display_text figlet width d = format_duration_hms d) ∧
    (∀ (figlet : String → Option String) (width d : Nat),
      figlet (format_duration_hms d) = none →
      display_text figlet width d = format_duration_hms d) ∧
    (∀ playing : Bool,
      (text_color playing = Color.Red ↔ playing = true) ∧
      (text_color playing = Color.Blue ↔ playing = false)) := by
  refine ⟨?_, ?_, ?_, ?_⟩
  · intro figlet width d banner hw hf
    simp [display_text, hw, hf]
  · intro figlet width d hw
    simp [display_text, Nat.not_le.mpr hw]
  · intro figlet width d hf
    by_cases hw : FIGLET_MIN_WIDTH ≤ width
    · simp [display_text, hw, hf]
    · simp [display_text, hw]
  · intro playing
    cases playing <;> simp [text_color]

/-- Witness for C9: a concrete banner collaborator that succeeds, one that
fails, a wide and a narrow terminal. -/
theorem render_display_spec_witness :
    (FIGLET_MIN_WIDTH ≤ 80 ∧
      display_text (fun _ => some "BIG") 80 0 = "BIG") ∧
    (59 < FIGLET_MIN_WIDTH ∧
      display_text (fun _ => some "BIG") 59 0 = format_duration_hms 0) ∧
    (display_text (fun _ => none) 80 0 = format_duration_hms 0) ∧
    (text_color true = Color.Red ∧ text_color false = Color.Blue) :=
  ⟨⟨by decide, render_display_spec.1 (fun _ => some "BIG") 80 0 "BIG" (by decide) rfl⟩,
   ⟨by decide, render_display_spec.2.1 (fun _ => some "BIG") 59 0 (by decide)⟩,
   render_display_spec.2.2.1 (fun _ => none) 80 0 rfl,
   ⟨(render_display_spec.2.2.2 true).1.mpr rfl, (render_display_spec.2.2.2 false).2.mpr rfl⟩⟩

/-! ## Claim C10: the hours field is not capped at two digits -/

theorem toDigitsCore_succ_ne (f n : Nat) (ds : List Char) (h : ¬ n / 10 = 0) :
    Nat.toDigitsCore 10 (f + 1) n ds =
      Nat.toDigitsCore 10 f (n / 10) (Nat.digitChar (n % 10) :: ds) := by
  simp [Nat.toDigitsCore, h]

theorem toDigitsCore_len_pos (f n : Nat) :
    1 ≤ (Nat.toDigitsCore 10 (f + 1) n []).length := by
  cases f with
  | zero =>
    simp only [Nat.toDigitsCore]
    split <;> simp
  | succ g =>
    by_cases h : n / 10 = 0
    · simp only [Nat.toDigitsCore, h, if_pos]
      simp
    · rw [toDigitsCore_succ_ne (g + 1) n [] h]
      rw [Nat.toDigitsCore_lens_eq]
      omega

/-- The decimal representation of a number at least 100 has at least three
digits. -/
theorem repr_length_ge_three (n : Nat) (h : 100 ≤ n) : 3 ≤ (Nat.repr n).length := by
  obtain ⟨m, rfl⟩ : ∃ m, n = m + 2 := ⟨n - 2, by omega⟩
  have h1 : ¬ (m + 2) / 10 = 0 := by omega
  have h2 : ¬ (m + 2) / 10 / 10 = 0 := by omega
  have e0 : Nat.repr (m + 2) =
      (Nat.toDigitsCore 10 (m + 2 + 1) (m + 2) []).asString := rfl
  rw [e0]
  have las : ∀ l : List Char, l.asString.length = l.length := fun _ => rfl
  rw [las]
  rw [toDigitsCore_succ_ne (m + 2) (m + 2) [] h1]
  have e2 : Nat.toDigitsCore 10 (m + 2) ((m + 2) / 10) [Nat.digitChar ((m + 2) % 10)] =
      Nat.toDigitsCore 10 (m + 1) ((m + 2) / 10 / 10)
        (Nat.digitChar ((m + 2) / 10 % 10) :: [Nat.digitChar ((m + 2) % 10)]) :=
    toDigitsCore_succ_ne (m + 1) ((m + 2) / 10) [Nat.digitChar ((m + 2) % 10)] h2
  rw [e2]
  rw [Nat.toDigitsCore_lens_eq, Nat.toDigitsCore_lens_eq]
  have := toDigitsCore_len_pos m ((m + 2) / 10 / 10)
  omega

/-- With at least two decimal digits, the width-two zero padding does
nothing. -/
theorem pad2_eq_repr (x : Nat) (h : ¬ (Nat.repr x).length < 2) :
    pad2 x = Nat.repr x := by
  simp [pad2, h]

/-- C10: the hours field is zero-padded to a minimum of two digits but never
truncated: for every duration of 360000 seconds (360000000 ms) or more the
hours field is the full decimal representation of the hour count, which has
three or more digits; in particular 360000 seconds formats as "100:00:00", so
there is no maximum representable value at "99:59:59". -/
theorem hours_field_uncapped :
    format_duration_hms (360000 * 1000) = "100:00:00" ∧
    ∀ d : Nat, 360000 * 1000 ≤ d →
      format_duration_hms d =
        Nat.repr (d / 1000 / 3600) ++ ":" ++ pad2 (d / 1000 % 3600 / 60) ++ ":" ++
          pad2 (d / 1000 % 60) ∧
      3 ≤ (Nat.repr (d / 1000 / 3600)).length := by
  constructor
  · decide
  · intro d h
    have hh : 100 ≤ d / 1000 / 3600 := by omega
    have hlen := repr_length_ge_three (d / 1000 / 3600) hh
    refine ⟨?_, hlen⟩
    simp only [format_duration_hms]
    rw [pad2_eq_repr (d / 1000 / 3600) (by omega)]

/-- Witness for C10: the general statement applied to 360000 seconds. -/
theorem hours_field_uncapped_witness :
    360000 * 1000 ≤ 360000 * 1000 ∧
    (format_duration_hms (360000 * 1000) =
        Nat.repr (360000 * 1000 / 1000 / 3600) ++ ":" ++
          pad2 (360000 * 1000 / 1000 % 3600 / 60) ++ ":" ++
          pad2 (360000 * 1000 / 1000 % 60) ∧
      3 ≤ (Nat.repr (360000 * 1000 / 1000 / 3600)).length) :=
  ⟨by decide, hours_field_uncapped.2 (360000 * 1000) (by decide)⟩

end Timer
